import Mathlib

/-!
Verification of the Alyx Tax Manager OAuth authentication worker
(src/workers/auth-worker/src/index.ts) against its specification.

The worker is a stateless HTTP handler in front of a durable key-value
store (the `TOKENS` KV namespace) and Google's OAuth token endpoint.
We embed the handler shallowly:

* machine-level platform primitives (`JSON.stringify`, `encodeURIComponent`,
  `new URL(...).origin`, the URLSearchParams serializer) are modelled by
  executable Lean functions faithful to their documented behaviour on the
  inputs the worker feeds them;
* the KV namespace is an association list threaded through each handler;
* the single upstream token-endpoint exchange a handler may perform is
  modelled by passing the provider's parsed JSON response as an oracle
  argument, and every handler reports how many upstream calls it made;
* JavaScript exceptions (in the worker only `new URL(referer)` on a
  malformed `Referer` header can throw) are modelled with `Except Unit`:
  `Except.error ()` is a thrown exception.
-/

namespace AuthWorker

/-! ## JSON values and `JSON.stringify` -/

/-- A JSON value as used by the worker's response bodies: the worker only
ever serializes flat objects whose values are strings, numbers or booleans. -/
inductive JsonVal where
  | str : String → JsonVal
  | num : Nat → JsonVal
  | bool : Bool → JsonVal
deriving DecidableEq, Repr

/-- Hexadecimal digit (uppercase), used by percent-encoding. -/
def hexDigit (n : Nat) : Char :=
  if n < 10 then Char.ofNat (48 + n) else Char.ofNat (55 + n)

/-- Two-digit uppercase hexadecimal rendering of a byte. -/
def hex2 (n : Nat) : String :=
  String.mk [hexDigit (n / 16), hexDigit (n % 16)]

/-- Escape a single character as `JSON.stringify` does inside a string
literal. -/
def jsonEscapeChar (c : Char) : String :=
  if c = Char.ofNat 34 then "\\\""
  else if c = Char.ofNat 92 then "\\\\"
  else if c = Char.ofNat 8 then "\\b"
  else if c = Char.ofNat 9 then "\\t"
  else if c = Char.ofNat 10 then "\\n"
  else if c = Char.ofNat 12 then "\\f"
  else if c = Char.ofNat 13 then "\\r"
  else if c.toNat < 32 then "\\u00" ++ hex2 c.toNat
  else String.singleton c

/-- Escape a string as `JSON.stringify` does. -/
def jsonEscape (s : String) : String :=
  s.data.foldl (fun acc c => acc ++ jsonEscapeChar c) ""

/-- Render a JSON value. -/
def jsonValRender : JsonVal → String
  | JsonVal.str s => "\"" ++ jsonEscape s ++ "\""
  | JsonVal.num n => toString n
  | JsonVal.bool b => if b then "true" else "false"

/-- Model of `JSON.stringify` on the flat objects the worker serializes
(field order is the JS object literal's insertion order). -/
def jsonStringify (obj : List (String × JsonVal)) : String :=
  "\x7b" ++ String.intercalate ","
    (obj.map (fun p => "\"" ++ jsonEscape p.1 ++ "\":" ++ jsonValRender p.2)) ++ "\x7d"

/-! ## Percent-encoders -/

/-- UTF-8 encoding of a single character, as a list of byte values. -/
def utf8Bytes (c : Char) : List Nat :=
  let n := c.toNat
  if n < 0x80 then [n]
  else if n < 0x800 then [0xC0 + n / 0x40, 0x80 + n % 0x40]
  else if n < 0x10000 then
    [0xE0 + n / 0x1000, 0x80 + (n / 0x40) % 0x40, 0x80 + n % 0x40]
  else
    [0xF0 + n / 0x40000, 0x80 + (n / 0x1000) % 0x40,
     0x80 + (n / 0x40) % 0x40, 0x80 + n % 0x40]

/-- Percent-encode a list of bytes as `%XX%YY...`. -/
def percentBytes (bs : List Nat) : String :=
  bs.foldl (fun acc b => acc ++ "%" ++ hex2 b) ""

/-- Characters `encodeURIComponent` leaves unescaped:
`A-Z a-z 0-9 - _ . ! ~ * ' ( )`. -/
def isURIUnescaped (c : Char) : Bool :=
  c.isAlphanum || c = '-' || c = '_' || c = '.' || c = '!' || c = '~' ||
  c = '*' || c = Char.ofNat 39 || c = '(' || c = ')'

/-- Model of JavaScript's `encodeURIComponent`. -/
def encodeURIComponent (s : String) : String :=
  s.data.foldl
    (fun acc c =>
      acc ++ (if isURIUnescaped c then String.singleton c else percentBytes (utf8Bytes c)))
    ""

/-- Model of the `URLSearchParams` serializer's escaping of one character
(`application/x-www-form-urlencoded`): alphanumerics and `* - . _` are kept,
a space becomes `+`, everything else is percent-encoded. -/
def formEncodeChar (c : Char) : String :=
  if c = ' ' then "+"
  else if c.isAlphanum || c = '*' || c = '-' || c = '.' || c = '_' then String.singleton c
  else percentBytes (utf8Bytes c)

/-- Model of the `URLSearchParams` serializer on one value. -/
def formEncode (s : String) : String :=
  s.data.foldl (fun acc c => acc ++ formEncodeChar c) ""

/-! ## String splitting and trimming (JS `String.prototype.split` / `trim`)

`String.splitOn` and `String.trim` of the Lean library are defined by
well-founded recursion and do not reduce inside the kernel, so the JS
primitives are modelled by the following structurally recursive functions
instead. -/

/-- Split a character list at every occurrence of `sep`; `acc` holds the
(reversed) characters of the piece currently being read. Like JS
`String.prototype.split` with a one-character separator, the result always
has at least one piece and keeps empty pieces. -/
def splitCharAux (sep : Char) : List Char → List Char → List String
  | [], acc => [String.mk acc.reverse]
  | c :: rest, acc =>
    if c = sep then String.mk acc.reverse :: splitCharAux sep rest []
    else splitCharAux sep rest (c :: acc)

/-- Model of JS `s.split(sep)` for a one-character separator. -/
def splitChar (s : String) (sep : Char) : List String :=
  splitCharAux sep s.data []

/-- ASCII whitespace, as stripped by JS `String.prototype.trim` (the
worker's configuration values only ever carry ASCII whitespace). -/
def isJSSpace (c : Char) : Bool :=
  c = ' ' || c = '\t' || c = '\n' || c = '\r' ||
  c = Char.ofNat 11 || c = Char.ofNat 12

/-- Model of JS `s.trim()`. -/
def jsTrim (s : String) : String :=
  String.mk (((s.data.dropWhile isJSSpace).reverse.dropWhile isJSSpace).reverse)

/-! ## The WHATWG URL origin, for `new URL(referer).origin` -/

/-- Locate the first occurrence of `://`, returning the characters before
and after it. -/
def breakSchemeSep : List Char → Option (List Char × List Char)
  | ':' :: '/' :: '/' :: rest => some ([], rest)
  | c :: rest => (breakSchemeSep rest).map (fun p => (c :: p.1, p.2))
  | [] => none

/-- Model of `new URL(s).origin` for the absolute URLs the worker feeds it:
`none` models the `URL` constructor throwing a `TypeError` on a string that
is not a valid absolute URL. A string parses when it has the shape
`scheme://host...` with a nonempty alphabetic scheme and a nonempty host;
the origin is `scheme://host` (host read up to the first `/`, `?` or `#`,
so a non-default port stays part of the origin, as in JS). -/
def newURLOrigin (s : String) : Option String :=
  match breakSchemeSep s.data with
  | some (schemeChars, restChars) =>
    let scheme := String.mk schemeChars
    if scheme ≠ "" ∧ schemeChars.all (fun c => c.isAlpha) then
      let host := restChars.takeWhile (fun c => c ≠ '/' ∧ c ≠ '?' ∧ c ≠ '#')
      if host.isEmpty then none else some (scheme ++ "://" ++ String.mk host)
    else none
  | none => none

/-! ## Data model (mirrors the `interface` declarations of index.ts) -/

/-- Environment bindings of the worker (`interface Env`); the KV namespace
binding `TOKENS` is threaded separately as explicit state. -/
structure Env where
  GOOGLE_CLIENT_ID : String
  GOOGLE_CLIENT_SECRET : String
  /-- Comma-separated list of allowed origins. -/
  ALLOWED_ORIGINS : String
deriving DecidableEq, Repr

/-- The stored session record (`interface TokenData`). -/
structure TokenData where
  refresh_token : String
  created : Nat
deriving DecidableEq, Repr

/-- Parsed JSON response of the Google token endpoint
(`interface GoogleTokenResponse`); optional fields are `Option`,
`none` meaning the field is absent. -/
structure GoogleTokenResponse where
  access_token : String
  expires_in : Nat
  refresh_token : Option String
  token_type : String
  error : Option String
  error_description : Option String
deriving DecidableEq, Repr

/-- One KV entry: the session record (the JSON round-trip
`JSON.parse ∘ JSON.stringify`, the identity on `TokenData`, is elided)
together with the `expirationTtl` it was written with. -/
structure StoredEntry where
  data : TokenData
  expirationTtl : Nat
deriving DecidableEq, Repr

/-- The TOKENS KV namespace, as an association list keyed by session id. -/
abbrev Store := List (String × StoredEntry)

/-- KV `get`. -/
def kvGet (store : Store) (k : String) : Option StoredEntry :=
  (store.find? (fun e => e.1 == k)).map (fun e => e.2)

/-- KV `delete` (deleting an absent key is a no-op). -/
def kvDelete (store : Store) (k : String) : Store :=
  store.filter (fun e => e.1 != k)

/-- KV `put` (overwrites an existing key). -/
def kvPut (store : Store) (k : String) (v : StoredEntry) : Store :=
  kvDelete store k ++ [(k, v)]

/-- An inbound HTTP request, with exactly the parts the worker reads:
method, `url.pathname`, `url.origin`, the query parameters it looks up,
and the three headers it reads. `none` models an absent header/parameter. -/
structure Request where
  method : String
  pathname : String
  /-- `url.origin` of the worker's own URL. -/
  urlOrigin : String
  /-- `url.searchParams.get('origin')`. -/
  originParam : Option String
  /-- `url.searchParams.get('code')`. -/
  codeParam : Option String
  /-- `url.searchParams.get('error')`. -/
  errorParam : Option String
  /-- `url.searchParams.get('state')`. -/
  stateParam : Option String
  /-- `request.headers.get('Origin')`. -/
  originHeader : Option String
  /-- `request.headers.get('Referer')`. -/
  refererHeader : Option String
  /-- `request.headers.get('Cookie')`. -/
  cookieHeader : Option String
deriving DecidableEq, Repr

/-- An outbound HTTP response: status, headers, optional body text. -/
structure Response where
  status : Nat
  headers : List (String × String)
  body : Option String
deriving DecidableEq, Repr

/-- Look a header up by exact name. -/
def getHeader (headers : List (String × String)) (k : String) : Option String :=
  (headers.find? (fun p => p.1 == k)).map (fun p => p.2)

/-- JS object spread `\x7b...base, ...extra\x7d` as a key-value map:
keys of `extra` override keys of `base` (order normalized to
non-overridden base keys first, then `extra`). -/
def objSpread (base extra : List (String × String)) : List (String × String) :=
  base.filter (fun p => !(extra.any (fun q => q.1 == p.1))) ++ extra

/-- JS string truthiness of a nullable string: `null` and `""` are falsy. -/
def optTruthy : Option String → Bool
  | none => false
  | some s => s != ""

/-! ## Constants and origin resolution (index.ts lines 29-61) -/

/-- `const GOOGLE_SCOPES`. -/
def GOOGLE_SCOPES : String := "https://www.googleapis.com/auth/drive.appdata"

/-- `const SESSION_MAX_AGE = 60 * 60 * 24 * 30` (30 days, in seconds). -/
def SESSION_MAX_AGE : Nat := 60 * 60 * 24 * 30

/-- `getAllowedOrigins`: split the configured list on commas and trim each
entry. `String.split` in JS on a nonempty separator never yields an empty
array, so the result is always nonempty. -/
def getAllowedOrigins (env : Env) : List String :=
  (splitChar env.ALLOWED_ORIGINS ',').map (fun o => jsTrim o)

/-- `allowedOrigins[0]`: the first configured allow-list entry
(the list is never empty, so the default is never reached). -/
def firstAllowed (allowedOrigins : List String) : String :=
  allowedOrigins.headD ""

/-- `getRequestOrigin`, lines 50-60: the fallback taken when the `Origin`
header is not truthy-and-allow-listed — the `Referer` header's URL origin
when that is truthy and allow-listed, else the first allow-list entry.
`Except.error ()` models `new URL(referer)` throwing on a malformed
`Referer` value. -/
def refererOrigin (request : Request) (allowedOrigins : List String) :
    Except Unit String :=
  match request.refererHeader with
  | some r =>
    if r != "" then
      match newURLOrigin r with
      | none => Except.error ()
      | some ro =>
        if allowedOrigins.contains ro then Except.ok ro
        else Except.ok (firstAllowed allowedOrigins)
    else Except.ok (firstAllowed allowedOrigins)
  | none => Except.ok (firstAllowed allowedOrigins)

/-- `getRequestOrigin`: the `Origin` header when truthy and allow-listed,
else the `Referer` fallback above. -/
def getRequestOrigin (request : Request) (env : Env) : Except Unit String :=
  let allowedOrigins := getAllowedOrigins env
  match request.originHeader with
  | some o =>
    if o != "" && allowedOrigins.contains o then Except.ok o
    else refererOrigin request allowedOrigins
  | none => refererOrigin request allowedOrigins

/-! ## Cookie helpers (index.ts lines 284-300) -/

/-- `getSessionId`, step 1: does the cookie string begin with
`session=` followed by at least one non-`;` character? If so return the
greedy capture of `/session=([^;]+)/` at this position. -/
def sessionValueAt : List Char → Option (List Char)
  | 's' :: 'e' :: 's' :: 's' :: 'i' :: 'o' :: 'n' :: '=' :: rest =>
    let v := rest.takeWhile (fun c => c ≠ ';')
    if v.isEmpty then none else some v
  | _ => none

/-- `getSessionId`, step 2: the regex scan, advancing the start position one
character at a time, exactly as `String.prototype.match` searches for the
first position where `/session=([^;]+)/` matches. -/
def sessionScan : List Char → Option (List Char)
  | [] => none
  | c :: rest =>
    match sessionValueAt (c :: rest) with
    | some v => some v
    | none => sessionScan rest

/-- `getSessionId`: first match of `/session=([^;]+)/` in the `Cookie`
header (the header defaulting to `""` when absent), else `null`. -/
def getSessionId (request : Request) : Option String :=
  let cookie := request.cookieHeader.getD ""
  (sessionScan cookie.data).map String.mk

/-- `buildSessionCookie`. -/
def buildSessionCookie (sessionId : String) (maxAge : Nat) : String :=
  String.intercalate "; "
    ["session=" ++ sessionId, "HttpOnly", "Secure", "SameSite=None",
     "Max-Age=" ++ toString maxAge, "Path=/"]

/-! ## Response builder (index.ts lines 302-322) -/

/-- The base header object built by `corsResponse` for a resolved origin. -/
def corsBaseHeaders (origin : String) : List (String × String) :=
  [("Access-Control-Allow-Origin", origin),
   ("Access-Control-Allow-Credentials", "true"),
   ("Access-Control-Allow-Methods", "GET, POST, OPTIONS"),
   ("Access-Control-Allow-Headers", "Content-Type"),
   ("Content-Type", "application/json")]

/-- `corsResponse`: resolve the origin (which may throw on a malformed
`Referer`), then build a response whose headers are the CORS base headers
spread with `extraHeaders`, and whose body is `JSON.stringify(body)` when a
body object is given. -/
def corsResponse (request : Request) (env : Env) (status : Nat)
    (body : Option (List (String × JsonVal)))
    (extraHeaders : List (String × String)) : Except Unit Response :=
  (getRequestOrigin request env).map (fun origin =>
    { status := status
      headers := objSpread (corsBaseHeaders origin) extraHeaders
      body := body.map jsonStringify })

/-- `Response.redirect(location, 302)`. -/
def redirectResponse (location : String) : Response :=
  { status := 302, headers := [("Location", location)], body := none }

/-! ## Handlers (index.ts lines 94-280)

Each handler returns the response it produced (or `Except.error ()` when a
JS exception escaped it), the KV store as left behind (KV writes performed
before a later throw persist), and the number of calls it made to the
upstream token endpoint `https://oauth2.googleapis.com/token`. -/

deriving instance DecidableEq for Except

/-- Result of running one handler. -/
structure HandleResult where
  response : Except Unit Response
  store : Store
  upstreamCalls : Nat
deriving DecidableEq, Repr

/-- `handleLogin` lines 100-104: prefer an allow-listed (and truthy)
explicit `origin` query parameter, falling back to header detection. -/
def loginOrigin (request : Request) (env : Env) : Except Unit String :=
  let allowedOrigins := getAllowedOrigins env
  match request.originParam with
  | some p =>
    if p != "" && allowedOrigins.contains p then Except.ok p
    else getRequestOrigin request env
  | none => getRequestOrigin request env

/-- The Google consent-screen URL built by `handleLogin`: base URL plus the
seven query parameters in insertion order, serialized by `URLSearchParams`. -/
def loginAuthUrl (request : Request) (env : Env) (origin : String) : String :=
  "https://accounts.google.com/o/oauth2/v2/auth" ++
  "?client_id=" ++ formEncode env.GOOGLE_CLIENT_ID ++
  "&redirect_uri=" ++ formEncode (request.urlOrigin ++ "/auth/callback") ++
  "&response_type=" ++ formEncode "code" ++
  "&scope=" ++ formEncode GOOGLE_SCOPES ++
  "&access_type=" ++ formEncode "offline" ++
  "&prompt=" ++ formEncode "consent" ++
  "&state=" ++ formEncode origin

/-- `GET /auth/login`: redirect to the Google OAuth consent screen.
No store interaction, no upstream call. -/
def handleLogin (request : Request) (env : Env) (store : Store) : HandleResult :=
  { response := (loginOrigin request env).map (fun origin =>
      redirectResponse (loginAuthUrl request env origin))
    store := store
    upstreamCalls := 0 }

/-- `handleCallback` line 129: the redirect origin is the `state` parameter
when truthy and allow-listed, else the first allow-list entry. -/
def callbackRedirectOrigin (request : Request) (env : Env) : String :=
  let allowedOrigins := getAllowedOrigins env
  match request.stateParam with
  | some s =>
    if s != "" && allowedOrigins.contains s then s
    else firstAllowed allowedOrigins
  | none => firstAllowed allowedOrigins

/-- `handleCallback` line 157: `tokens.error_description || tokens.error`,
evaluated when `tokens.error` is truthy. -/
def callbackErrorMessage (tokens : GoogleTokenResponse) : String :=
  match tokens.error_description with
  | some d => if d != "" then d else (tokens.error.getD "")
  | none => tokens.error.getD ""

/-- `GET /auth/callback`: on a truthy `error` or falsy `code` query
parameter, redirect with an error marker without touching the store or the
upstream endpoint; otherwise exchange the code (`provider` is the parsed
JSON of that single upstream call), and either redirect with an error
marker (provider error, or missing/empty `refresh_token`) leaving the store
unchanged, or store a fresh session record under `newSessionId` with the
fixed TTL and redirect with `?auth=success` and the session cookie.
`now` is `Date.now()`. -/
def handleCallback (request : Request) (env : Env) (store : Store)
    (provider : GoogleTokenResponse) (newSessionId : String) (now : Nat) :
    HandleResult :=
  let redirectOrigin := callbackRedirectOrigin request env
  if optTruthy request.errorParam then
    { response := Except.ok (redirectResponse
        (redirectOrigin ++ "?auth=error&message=" ++
          encodeURIComponent (request.errorParam.getD "")))
      store := store, upstreamCalls := 0 }
  else if !(optTruthy request.codeParam) then
    { response := Except.ok (redirectResponse
        (redirectOrigin ++ "?auth=error&message=no_code"))
      store := store, upstreamCalls := 0 }
  else
    let tokens := provider
    if optTruthy tokens.error then
      { response := Except.ok (redirectResponse
          (redirectOrigin ++ "?auth=error&message=" ++
            encodeURIComponent (callbackErrorMessage tokens)))
        store := store, upstreamCalls := 1 }
    else if !(optTruthy tokens.refresh_token) then
      { response := Except.ok (redirectResponse
          (redirectOrigin ++ "?auth=error&message=no_refresh_token"))
        store := store, upstreamCalls := 1 }
    else
      let tokenData : TokenData :=
        { refresh_token := tokens.refresh_token.getD "", created := now }
      { response := Except.ok
          { status := 302
            headers :=
              [("Location", redirectOrigin ++ "?auth=success"),
               ("Set-Cookie", buildSessionCookie newSessionId SESSION_MAX_AGE)]
            body := none }
        store := kvPut store newSessionId
          { data := tokenData, expirationTtl := SESSION_MAX_AGE }
        upstreamCalls := 1 }

/-- `GET /auth/token`: no session cookie → 401 `NO_SESSION`; cookie whose
key is absent from the store → 401 `SESSION_EXPIRED`; otherwise one
refresh exchange upstream (`provider` is its parsed JSON): on
`invalid_grant` delete the record, clear the cookie and answer 401
`REFRESH_FAILED`; on any other truthy error answer 500 `REFRESH_ERROR`
leaving the store unchanged; on success answer 200 with the fresh access
token. -/
def handleToken (request : Request) (env : Env) (store : Store)
    (provider : GoogleTokenResponse) : HandleResult :=
  match getSessionId request with
  | none =>
    { response := corsResponse request env 401
        (some [("error", JsonVal.str "Not authenticated"),
               ("code", JsonVal.str "NO_SESSION")]) []
      store := store, upstreamCalls := 0 }
  | some sessionId =>
    match kvGet store sessionId with
    | none =>
      { response := corsResponse request env 401
          (some [("error", JsonVal.str "Session expired"),
                 ("code", JsonVal.str "SESSION_EXPIRED")]) []
        store := store, upstreamCalls := 0 }
    | some _ =>
      -- the one upstream refresh exchange; its request body carries the
      -- stored refresh token, its parsed JSON response is `provider`
      let tokens := provider
      if optTruthy tokens.error then
        if tokens.error == some "invalid_grant" then
          { response := corsResponse request env 401
              (some [("error", JsonVal.str "Session invalidated"),
                     ("code", JsonVal.str "REFRESH_FAILED")])
              [("Set-Cookie", buildSessionCookie "" 0)]
            store := kvDelete store sessionId, upstreamCalls := 1 }
        else
          { response := corsResponse request env 500
              (some [("error", JsonVal.str "Token refresh failed"),
                     ("code", JsonVal.str "REFRESH_ERROR")]) []
            store := store, upstreamCalls := 1 }
      else
        { response := corsResponse request env 200
            (some [("access_token", JsonVal.str tokens.access_token),
                   ("expires_in", JsonVal.num tokens.expires_in)]) []
          store := store, upstreamCalls := 1 }

/-- `POST /auth/logout`: delete the record when a session id is present,
then answer 200 `\x7bsuccess:true\x7d` with a cleared cookie. -/
def handleLogout (request : Request) (env : Env) (store : Store) : HandleResult :=
  let store2 :=
    match getSessionId request with
    | some sessionId => kvDelete store sessionId
    | none => store
  { response := corsResponse request env 200
      (some [("success", JsonVal.bool true)])
      [("Set-Cookie", buildSessionCookie "" 0)]
    store := store2, upstreamCalls := 0 }

/-- `GET /auth/status`: read-only probe of the store; never contacts the
upstream endpoint (it takes no provider oracle at all). -/
def handleStatus (request : Request) (env : Env) (store : Store) : HandleResult :=
  match getSessionId request with
  | none =>
    { response := corsResponse request env 200
        (some [("authenticated", JsonVal.bool false)]) []
      store := store, upstreamCalls := 0 }
  | some sessionId =>
    match kvGet store sessionId with
    | none =>
      { response := corsResponse request env 200
          (some [("authenticated", JsonVal.bool false)]) []
        store := store, upstreamCalls := 0 }
    | some entry =>
      { response := corsResponse request env 200
          (some [("authenticated", JsonVal.bool true),
                 ("sessionCreated", JsonVal.num entry.data.created)]) []
        store := store, upstreamCalls := 0 }

/-- The top-level `fetch` handler: OPTIONS preflight (outside the
try/catch), then route by pathname inside a try/catch whose catch block
builds a CORS'd 500 — a catch block that itself calls `corsResponse` and can
therefore throw again. Unknown paths get a bare `Not found` response (the
`Response` constructor adds a text content type for a string body). -/
def fetchHandler (request : Request) (env : Env) (store : Store)
    (provider : GoogleTokenResponse) (newSessionId : String) (now : Nat) :
    HandleResult :=
  if request.method == "OPTIONS" then
    { response := corsResponse request env 204 none []
      store := store, upstreamCalls := 0 }
  else
    let result :=
      match request.pathname with
      | "/auth/login" => handleLogin request env store
      | "/auth/callback" => handleCallback request env store provider newSessionId now
      | "/auth/token" => handleToken request env store provider
      | "/auth/logout" => handleLogout request env store
      | "/auth/status" => handleStatus request env store
      | _ =>
        { response := Except.ok
            { status := 404
              headers := [("Content-Type", "text/plain;charset=UTF-8")]
              body := some "Not found" }
          store := store, upstreamCalls := 0 }
    match result.response with
    | Except.ok r => { result with response := Except.ok r }
    | Except.error _ =>
      { result with
          response := corsResponse request env 500
            (some [("error", JsonVal.str "Internal server error")]) [] }

/-! ## Concrete fixtures used by witnesses and counterexamples -/

/-- A GET request with no query parameters and no headers; the concrete
requests below override individual fields. -/
def blankRequest : Request where
  method := "GET"
  pathname := "/"
  urlOrigin := "https://auth.example"
  originParam := none
  codeParam := none
  errorParam := none
  stateParam := none
  originHeader := none
  refererHeader := none
  cookieHeader := none

/-- An environment with a two-entry allow-list. -/
def twoOriginEnv : Env where
  GOOGLE_CLIENT_ID := "cid"
  GOOGLE_CLIENT_SECRET := "secretvalue"
  ALLOWED_ORIGINS := "https://a.example, https://b.example"

/-- A successful provider token response carrying a refresh token. -/
def okProvider : GoogleTokenResponse where
  access_token := "at1"
  expires_in := 3599
  refresh_token := some "rt1"
  token_type := "Bearer"
  error := none
  error_description := none

/-- A callback request carrying a code and an allow-listed `state`. -/
def cbSuccessRequest : Request :=
  { blankRequest with
      pathname := "/auth/callback"
      codeParam := some "c1"
      stateParam := some "https://b.example" }

/-- A callback request carrying a code and no `state`. -/
def cbPlainRequest : Request :=
  { blankRequest with
      pathname := "/auth/callback"
      codeParam := some "c1" }

/-- A provider token response that omits the refresh token. -/
def noRefreshProvider : GoogleTokenResponse :=
  { okProvider with refresh_token := none }

/-- A status request with a malformed `Referer` header and no `Origin`. -/
def badRefererRequest : Request :=
  { blankRequest with
      pathname := "/auth/status"
      refererHeader := some "not a url" }

/-- A request for an unknown path. -/
def notFoundRequest : Request :=
  { blankRequest with pathname := "/nope" }

/-- A request whose `Origin` header is untrusted but whose `Referer` origin
is the second allow-list entry. -/
def evilOriginRequest : Request :=
  { blankRequest with
      pathname := "/auth/status"
      originHeader := some "https://evil.example"
      refererHeader := some "https://b.example/page" }

/-- An environment whose allow-list contains the empty string (a trailing
comma in the configuration). -/
def emptyEntryEnv : Env :=
  { twoOriginEnv with ALLOWED_ORIGINS := "https://a.example," }

/-- A request carrying an empty `Origin` header. -/
def emptyOriginRequest : Request :=
  { blankRequest with originHeader := some "" }

/-- A token request whose `origin` query parameter and `Origin` header name
two different allow-listed origins. -/
def paramVsHeaderRequest : Request :=
  { blankRequest with
      pathname := "/auth/token"
      originParam := some "https://b.example"
      originHeader := some "https://a.example" }

/-- A login request declaring its origin through the query parameter. -/
def loginParamRequest : Request :=
  { blankRequest with
      pathname := "/auth/login"
      originParam := some "https://b.example" }

/-! ## General lemmas about the embedding's building blocks -/

/-- Splitting always produces at least one piece. -/
theorem splitCharAux_ne_nil (sep : Char) (l acc : List Char) :
    splitCharAux sep l acc ≠ [] := by
  induction l generalizing acc with
  | nil => simp [splitCharAux]
  | cons c rest ih =>
    unfold splitCharAux
    split
    · simp
    · exact ih _

/-- Model of JS `split`: the result is never the empty list. -/
theorem splitChar_ne_nil (s : String) (sep : Char) : splitChar s sep ≠ [] :=
  splitCharAux_ne_nil sep s.data []

/-- The allow-list parsed from the configuration is nonempty. -/
theorem getAllowedOrigins_ne_nil (env : Env) : getAllowedOrigins env ≠ [] := by
  unfold getAllowedOrigins
  simp [splitChar_ne_nil]

/-- The fallback entry `allowedOrigins[0]` is itself a member of the
allow-list. -/
theorem firstAllowed_mem (env : Env) :
    (getAllowedOrigins env).contains (firstAllowed (getAllowedOrigins env)) = true := by
  rcases h : getAllowedOrigins env with _ | ⟨a, t⟩
  · exact absurd h (getAllowedOrigins_ne_nil env)
  · simp [firstAllowed]

/-- A nonempty list contains its own first element. -/
theorem contains_firstAllowed (l : List String) (hne : l ≠ []) :
    l.contains (firstAllowed l) = true := by
  rcases l with _ | ⟨a, t⟩
  · exact absurd rfl hne
  · simp [firstAllowed]

/-- A string with a parseable URL origin is nonempty. -/
theorem newURLOrigin_ne_empty (ref ro : String) (h : newURLOrigin ref = some ro) :
    ref ≠ "" := by
  intro he
  subst he
  simp [newURLOrigin, breakSchemeSep] at h

/-- Referer fallback, no `Referer` header: the first allow-list entry. -/
theorem refererOrigin_none (request : Request) (allowedOrigins : List String)
    (h : request.refererHeader = none) :
    refererOrigin request allowedOrigins = Except.ok (firstAllowed allowedOrigins) := by
  simp [refererOrigin, h]

/-- Referer fallback, allow-listed `Referer` origin: that origin. -/
theorem refererOrigin_hit (request : Request) (allowedOrigins : List String)
    (ref ro : String) (h : request.refererHeader = some ref)
    (hu : newURLOrigin ref = some ro)
    (hm : allowedOrigins.contains ro = true) :
    refererOrigin request allowedOrigins = Except.ok ro := by
  have hne : (ref != "") = true := by
    simp [newURLOrigin_ne_empty ref ro hu]
  have hm2 : ro ∈ allowedOrigins := by simpa using hm
  simp [refererOrigin, h, hne, hu, hm2]

/-- Referer fallback, parseable but not allow-listed `Referer` origin: the
first allow-list entry. -/
theorem refererOrigin_miss (request : Request) (allowedOrigins : List String)
    (ref ro : String) (h : request.refererHeader = some ref)
    (hu : newURLOrigin ref = some ro)
    (hm : allowedOrigins.contains ro = false) :
    refererOrigin request allowedOrigins = Except.ok (firstAllowed allowedOrigins) := by
  have hne : (ref != "") = true := by
    simp [newURLOrigin_ne_empty ref ro hu]
  have hm2 : ro ∉ allowedOrigins := by simpa using hm
  simp [refererOrigin, h, hne, hu, hm2]

/-- Whatever the referer fallback returns is a member of the allow-list. -/
theorem refererOrigin_mem (request : Request) (allowedOrigins : List String)
    (o0 : String) (hne : allowedOrigins ≠ [])
    (h : refererOrigin request allowedOrigins = Except.ok o0) :
    allowedOrigins.contains o0 = true := by
  unfold refererOrigin at h
  rcases hrh : request.refererHeader with _ | ref <;> rw [hrh] at h
  · cases h
    exact contains_firstAllowed allowedOrigins hne
  · have h2 : (if (ref != "") = true then
        (match newURLOrigin ref with
         | none => Except.error ()
         | some ro =>
           if allowedOrigins.contains ro = true then Except.ok ro
           else Except.ok (firstAllowed allowedOrigins))
        else Except.ok (firstAllowed allowedOrigins)) = Except.ok o0 := h
    split at h2
    · rcases hu : newURLOrigin ref with _ | ro <;> rw [hu] at h2
      · exact absurd h2 (by simp)
      · have h3 : (if allowedOrigins.contains ro = true then Except.ok ro
            else Except.ok (firstAllowed allowedOrigins)) = Except.ok o0 := h2
        rcases hm : allowedOrigins.contains ro with _ | _ <;> rw [hm] at h3
        · rw [if_neg (by simp)] at h3
          cases h3
          exact contains_firstAllowed allowedOrigins hne
        · rw [if_pos rfl] at h3
          cases h3
          exact hm
    · cases h2
      exact contains_firstAllowed allowedOrigins hne

/-- The truthy-and-allow-listed `Origin` header wins. -/
theorem getRequestOrigin_origin_hit (request : Request) (env : Env) (o : String)
    (h : request.originHeader = some o) (hne : o ≠ "")
    (hm : (getAllowedOrigins env).contains o = true) :
    getRequestOrigin request env = Except.ok o := by
  have hm2 : o ∈ getAllowedOrigins env := by simpa using hm
  simp [getRequestOrigin, h, hne, hm2]

/-- When the `Origin` header is absent, empty or not allow-listed, the
resolution is the referer fallback. -/
theorem getRequestOrigin_origin_miss (request : Request) (env : Env)
    (h : match request.originHeader with
         | some o => o = "" ∨ (getAllowedOrigins env).contains o = false
         | none => True) :
    getRequestOrigin request env = refererOrigin request (getAllowedOrigins env) := by
  unfold getRequestOrigin
  rcases hoh : request.originHeader with _ | o
  · rfl
  · rw [hoh] at h
    rcases h with h | h
    · subst h
      simp
    · have hm2 : o ∉ getAllowedOrigins env := by simpa using h
      simp [hm2]

/-- Whatever `getRequestOrigin` returns is a member of the allow-list. -/
theorem getRequestOrigin_mem (request : Request) (env : Env) (o0 : String)
    (h : getRequestOrigin request env = Except.ok o0) :
    (getAllowedOrigins env).contains o0 = true := by
  unfold getRequestOrigin at h
  rcases hoh : request.originHeader with _ | o <;> rw [hoh] at h
  · exact refererOrigin_mem request _ o0 (getAllowedOrigins_ne_nil env) h
  · have h2 : (if (o != "" && (getAllowedOrigins env).contains o) = true
        then Except.ok o
        else refererOrigin request (getAllowedOrigins env)) = Except.ok o0 := h
    split at h2
    · cases h2
      rename_i hc
      exact (Bool.and_eq_true _ _ |>.mp hc).2
    · exact refererOrigin_mem request _ o0 (getAllowedOrigins_ne_nil env) h2


/-- Deleting a key twice is the same as deleting it once. -/
theorem kvDelete_idem (store : Store) (k : String) :
    kvDelete (kvDelete store k) k = kvDelete store k := by
  simp [kvDelete, List.filter_filter]

/-- After `kvDelete store k`, the key `k` is absent. -/
theorem kvGet_kvDelete (store : Store) (k : String) :
    kvGet (kvDelete store k) k = none := by
  simp only [kvGet, Option.map_eq_none', List.find?_eq_none, kvDelete,
    List.mem_filter]
  intro e he
  simpa using he.2

/-- Deleting an absent key leaves the store unchanged. -/
theorem kvDelete_of_get_none (store : Store) (k : String)
    (h : kvGet store k = none) : kvDelete store k = store := by
  simp only [kvGet, Option.map_eq_none', List.find?_eq_none] at h
  unfold kvDelete
  rw [List.filter_eq_self]
  intro e he
  simpa using h e he

/-- Putting a fresh key appends exactly one record. -/
theorem kvPut_fresh (store : Store) (k : String) (v : StoredEntry)
    (h : kvGet store k = none) : kvPut store k v = store ++ [(k, v)] := by
  rw [kvPut, kvDelete_of_get_none store k h]

/-- Spreading an empty extra-header object is the identity. -/
theorem objSpread_nil (base : List (String × String)) : objSpread base [] = base := by
  simp [objSpread]

/-- `find?` commutes with a `filter` that keeps every element the predicate
accepts. -/
theorem find?_filter_of_imp (l : List α) (pred f : α → Bool)
    (h : ∀ a, pred a = true → f a = true) :
    (l.filter f).find? pred = l.find? pred := by
  induction l with
  | nil => rfl
  | cons a as ih =>
    cases hp : pred a with
    | true =>
      have hf := h a hp
      simp [List.filter_cons, hf, List.find?_cons, hp]
    | false =>
      cases hf : f a <;> simp [List.filter_cons, hf, List.find?_cons, hp, ih]

/-- A header present in the base object survives a spread whose extra object
does not mention its name. -/
theorem getHeader_objSpread_base (base extra : List (String × String)) (k v : String)
    (hbase : getHeader base k = some v)
    (hextra : extra.all (fun p => p.1 != k) = true) :
    getHeader (objSpread base extra) k = some v := by
  have hnone : extra.find? (fun p => p.1 == k) = none := by
    rw [List.find?_eq_none]
    intro p hp
    simpa using List.all_eq_true.mp hextra p hp
  have hkeep : ∀ p : String × String, (p.1 == k) = true →
      (!(extra.any (fun q => q.1 == p.1))) = true := by
    intro p hp
    have hk : p.1 = k := by simpa using hp
    subst hk
    rw [Bool.not_eq_true', List.any_eq_false]
    intro q hq
    simpa using List.all_eq_true.mp hextra q hq
  unfold getHeader objSpread
  rw [List.find?_append, find?_filter_of_imp _ _ _ hkeep]
  unfold getHeader at hbase
  rcases hfind : base.find? (fun p => p.1 == k) with _ | p
  · rw [hfind] at hbase; simp at hbase
  · rw [hfind] at hbase
    simp_all [Option.or]

/-- When the origin resolution succeeds, `corsResponse` returns the response
it describes. -/
theorem corsResponse_ok {request : Request} {env : Env} {o : String}
    (hOrigin : getRequestOrigin request env = Except.ok o)
    (status : Nat) (body : Option (List (String × JsonVal)))
    (extraHeaders : List (String × String)) :
    corsResponse request env status body extraHeaders =
      Except.ok
        { status := status
          headers := objSpread (corsBaseHeaders o) extraHeaders
          body := body.map jsonStringify } := by
  simp [corsResponse, hOrigin, Except.map]

/-- Spreading a `Set-Cookie` header over the CORS base headers appends it. -/
theorem objSpread_corsBase_setCookie (o c : String) :
    objSpread (corsBaseHeaders o) [("Set-Cookie", c)] =
      corsBaseHeaders o ++ [("Set-Cookie", c)] := by
  simp [objSpread, corsBaseHeaders]

/-- Inversion for `corsResponse`: a produced response comes from a
successful origin resolution and has the spread header object. -/
theorem corsResponse_ok_inv {request : Request} {env : Env} {status : Nat}
    {body : Option (List (String × JsonVal))}
    {extra : List (String × String)} {r : Response}
    (hr : corsResponse request env status body extra = Except.ok r) :
    ∃ o0, getRequestOrigin request env = Except.ok o0 ∧
      r = { status := status
            headers := objSpread (corsBaseHeaders o0) extra
            body := body.map jsonStringify } := by
  unfold corsResponse at hr
  rcases hg : getRequestOrigin request env with u | o0 <;> rw [hg] at hr <;>
    simp [Except.map] at hr
  exact ⟨o0, rfl, hr.symm⟩

/-- The `Access-Control-Allow-Origin` header of a spread CORS header object
whose extra part does not override it. -/
theorem getHeader_ACAO (o : String) (extra : List (String × String))
    (hextra : extra.all (fun p => p.1 != "Access-Control-Allow-Origin") = true) :
    getHeader (objSpread (corsBaseHeaders o) extra) "Access-Control-Allow-Origin" =
      some o := by
  apply getHeader_objSpread_base
  · simp [corsBaseHeaders, getHeader]
  · exact hextra


/-! ## Claim theorems -/

/-- C10: session-identifier extraction matches the first substring of the
form `session=<value>`, so a Cookie header that carries a cookie named
`xsession` (and no cookie named `session`) still yields that foreign
cookie's value: the names occurring in `xsession=v; theme=dark` are
`xsession` and `theme`, yet extraction returns `v`. -/
theorem getSessionId_matches_foreign_cookie :
    getSessionId { blankRequest with cookieHeader := some "xsession=v; theme=dark" } = some "v"
    ∧ (splitChar "xsession=v; theme=dark" ';').map
        (fun p => (splitChar (jsTrim p) '=').headD "") = ["xsession", "theme"] := by
  constructor
  · rfl
  · rfl

/-- C1: for every `/auth/token` request whose origin resolution succeeds
(`Referer` absent, empty or well-formed — the sole exception is the
malformed-`Referer` fault recorded separately): no session cookie gives
401 `NO_SESSION`; a cookie whose key is absent from the store gives 401
`SESSION_EXPIRED`; a refresh exchange answered with `invalid_grant` gives
401 `REFRESH_FAILED`, deletes the record and clears the cookie in the very
response; any other provider error gives 500 `REFRESH_ERROR` and leaves the
store unchanged. -/
theorem token_endpoint_error_taxonomy (request : Request) (env : Env)
    (store : Store) (provider : GoogleTokenResponse) (o : String)
    (hOrigin : getRequestOrigin request env = Except.ok o) :
    (getSessionId request = none →
      handleToken request env store provider =
        { response := Except.ok
            { status := 401
              headers := corsBaseHeaders o
              body := some (jsonStringify
                [("error", JsonVal.str "Not authenticated"),
                 ("code", JsonVal.str "NO_SESSION")]) }
          store := store
          upstreamCalls := 0 })
  ∧ (∀ sid, getSessionId request = some sid → kvGet store sid = none →
      handleToken request env store provider =
        { response := Except.ok
            { status := 401
              headers := corsBaseHeaders o
              body := some (jsonStringify
                [("error", JsonVal.str "Session expired"),
                 ("code", JsonVal.str "SESSION_EXPIRED")]) }
          store := store
          upstreamCalls := 0 })
  ∧ (∀ sid entry, getSessionId request = some sid → kvGet store sid = some entry →
      provider.error = some "invalid_grant" →
      handleToken request env store provider =
        { response := Except.ok
            { status := 401
              headers := corsBaseHeaders o ++
                [("Set-Cookie", buildSessionCookie "" 0)]
              body := some (jsonStringify
                [("error", JsonVal.str "Session invalidated"),
                 ("code", JsonVal.str "REFRESH_FAILED")]) }
          store := kvDelete store sid
          upstreamCalls := 1 }
      ∧ kvGet (handleToken request env store provider).store sid = none)
  ∧ (∀ sid entry e, getSessionId request = some sid → kvGet store sid = some entry →
      provider.error = some e → e ≠ "" → e ≠ "invalid_grant" →
      handleToken request env store provider =
        { response := Except.ok
            { status := 500
              headers := corsBaseHeaders o
              body := some (jsonStringify
                [("error", JsonVal.str "Token refresh failed"),
                 ("code", JsonVal.str "REFRESH_ERROR")]) }
          store := store
          upstreamCalls := 1 }) := by
  refine ⟨?_, ?_, ?_, ?_⟩
  · intro h
    simp [handleToken, h, corsResponse_ok hOrigin, objSpread_nil]
  · intro sid hs hk
    simp [handleToken, hs, hk, corsResponse_ok hOrigin, objSpread_nil]
  · intro sid entry hs hk hE
    have h1 : handleToken request env store provider =
        { response := Except.ok
            { status := 401
              headers := corsBaseHeaders o ++
                [("Set-Cookie", buildSessionCookie "" 0)]
              body := some (jsonStringify
                [("error", JsonVal.str "Session invalidated"),
                 ("code", JsonVal.str "REFRESH_FAILED")]) }
          store := kvDelete store sid
          upstreamCalls := 1 } := by
      simp [handleToken, hs, hk, hE, optTruthy, corsResponse_ok hOrigin,
        objSpread_corsBase_setCookie]
    exact ⟨h1, by rw [h1]; exact kvGet_kvDelete store sid⟩
  · intro sid entry e hs hk hE hne hni
    have hb : (provider.error == some "invalid_grant") = false := by
      simp [hE, hni]
    simp [handleToken, hs, hk, hE, hne, hb, optTruthy, corsResponse_ok hOrigin,
      objSpread_nil]
    exact hni

/-- C1 witness: a concrete cookie-less request hits the `NO_SESSION` case. -/
theorem token_endpoint_error_taxonomy_witness :
    getRequestOrigin blankRequest twoOriginEnv = Except.ok "https://a.example"
  ∧ getSessionId blankRequest = none
  ∧ handleToken blankRequest twoOriginEnv [] okProvider =
      { response := Except.ok
          { status := 401
            headers := corsBaseHeaders "https://a.example"
            body := some (jsonStringify
              [("error", JsonVal.str "Not authenticated"),
               ("code", JsonVal.str "NO_SESSION")]) }
        store := []
        upstreamCalls := 0 } :=
  ⟨by decide, by decide,
    (token_endpoint_error_taxonomy blankRequest twoOriginEnv [] okProvider
      "https://a.example" (by decide)).1 (by decide)⟩


/-- C7: `/auth/status` is a read-only probe. It performs no upstream
token-endpoint call (its oracle-free type and call count witness this),
leaves the store untouched, answers 200 with `authenticated:false` when no
cookie is present or the record is absent, and 200 with
`authenticated:true` plus the record's creation timestamp otherwise. -/
theorem status_endpoint_readonly (request : Request) (env : Env)
    (store : Store) (o : String)
    (hOrigin : getRequestOrigin request env = Except.ok o) :
    (handleStatus request env store).upstreamCalls = 0
  ∧ (handleStatus request env store).store = store
  ∧ (getSessionId request = none →
      (handleStatus request env store).response = Except.ok
        { status := 200
          headers := corsBaseHeaders o
          body := some (jsonStringify [("authenticated", JsonVal.bool false)]) })
  ∧ (∀ sid, getSessionId request = some sid → kvGet store sid = none →
      (handleStatus request env store).response = Except.ok
        { status := 200
          headers := corsBaseHeaders o
          body := some (jsonStringify [("authenticated", JsonVal.bool false)]) })
  ∧ (∀ sid entry, getSessionId request = some sid → kvGet store sid = some entry →
      (handleStatus request env store).response = Except.ok
        { status := 200
          headers := corsBaseHeaders o
          body := some (jsonStringify
            [("authenticated", JsonVal.bool true),
             ("sessionCreated", JsonVal.num entry.data.created)]) }) := by
  refine ⟨?_, ?_, ?_, ?_, ?_⟩
  · rcases h : getSessionId request with _ | sid
    · simp [handleStatus, h]
    · rcases hk : kvGet store sid with _ | entry <;> simp [handleStatus, h, hk]
  · rcases h : getSessionId request with _ | sid
    · simp [handleStatus, h]
    · rcases hk : kvGet store sid with _ | entry <;> simp [handleStatus, h, hk]
  · intro h
    simp [handleStatus, h, corsResponse_ok hOrigin, objSpread_nil]
  · intro sid hs hk
    simp [handleStatus, hs, hk, corsResponse_ok hOrigin, objSpread_nil]
  · intro sid entry hs hk
    simp [handleStatus, hs, hk, corsResponse_ok hOrigin, objSpread_nil]

/-- C7 witness: a concrete request with a stored session. -/
theorem status_endpoint_readonly_witness :
    getRequestOrigin { blankRequest with cookieHeader := some "session=s1" }
      twoOriginEnv = Except.ok "https://a.example"
  ∧ getSessionId { blankRequest with cookieHeader := some "session=s1" } = some "s1"
  ∧ kvGet [("s1", ⟨⟨"rt", 7⟩, 2592000⟩)] "s1" = some ⟨⟨"rt", 7⟩, 2592000⟩
  ∧ (handleStatus { blankRequest with cookieHeader := some "session=s1" }
      twoOriginEnv [("s1", ⟨⟨"rt", 7⟩, 2592000⟩)]).upstreamCalls = 0
  ∧ (handleStatus { blankRequest with cookieHeader := some "session=s1" }
      twoOriginEnv [("s1", ⟨⟨"rt", 7⟩, 2592000⟩)]).store = [("s1", ⟨⟨"rt", 7⟩, 2592000⟩)]
  ∧ (handleStatus { blankRequest with cookieHeader := some "session=s1" }
      twoOriginEnv [("s1", ⟨⟨"rt", 7⟩, 2592000⟩)]).response = Except.ok
      { status := 200
        headers := corsBaseHeaders "https://a.example"
        body := some (jsonStringify
          [("authenticated", JsonVal.bool true),
           ("sessionCreated", JsonVal.num 7)]) } := by
  have h := status_endpoint_readonly
    { blankRequest with cookieHeader := some "session=s1" } twoOriginEnv
    [("s1", ⟨⟨"rt", 7⟩, 2592000⟩)] "https://a.example" (by decide)
  exact ⟨by decide, by decide, by decide, h.1, h.2.1,
    h.2.2.2.2 "s1" ⟨⟨"rt", 7⟩, 2592000⟩ (by decide) (by decide)⟩

/-- C8: `/auth/logout` (for any request whose origin resolution succeeds)
never errors, answers 200 `\x7bsuccess:true\x7d` with the cleared cookie, makes
no upstream call, deletes the record exactly when a session identifier is
present (deleting an absent key is a no-op), and running it again on the
resulting store changes nothing: the second call returns the identical
result. -/
theorem logout_idempotent (request : Request) (env : Env) (store : Store)
    (o : String) (hOrigin : getRequestOrigin request env = Except.ok o) :
    (handleLogout request env store).response = Except.ok
      { status := 200
        headers := corsBaseHeaders o ++ [("Set-Cookie", buildSessionCookie "" 0)]
        body := some (jsonStringify [("success", JsonVal.bool true)]) }
  ∧ buildSessionCookie "" 0 = "session=; HttpOnly; Secure; SameSite=None; Max-Age=0; Path=/"
  ∧ (handleLogout request env store).upstreamCalls = 0
  ∧ (handleLogout request env store).store =
      (match getSessionId request with
       | some sid => kvDelete store sid
       | none => store)
  ∧ (∀ sid, getSessionId request = some sid →
      kvGet (handleLogout request env store).store sid = none)
  ∧ handleLogout request env ((handleLogout request env store).store) =
      handleLogout request env store := by
  refine ⟨?_, by decide, rfl, ?_, ?_, ?_⟩
  · simp [handleLogout, corsResponse_ok hOrigin, objSpread_corsBase_setCookie]
  · rcases h : getSessionId request with _ | sid <;> simp [handleLogout, h]
  · intro sid h
    simp [handleLogout, h, kvGet_kvDelete]
  · rcases h : getSessionId request with _ | sid <;>
      simp [handleLogout, h, kvDelete_idem]

/-- C8 witness: a concrete logout with a cookie referencing a stored
record, and its conclusion instantiated. -/
theorem logout_idempotent_witness :
    getRequestOrigin { blankRequest with cookieHeader := some "session=s1" }
      twoOriginEnv = Except.ok "https://a.example"
  ∧ ((handleLogout { blankRequest with cookieHeader := some "session=s1" }
        twoOriginEnv [("s1", ⟨⟨"rt", 7⟩, 2592000⟩)]).response = Except.ok
        { status := 200
          headers := corsBaseHeaders "https://a.example" ++
            [("Set-Cookie", buildSessionCookie "" 0)]
          body := some (jsonStringify [("success", JsonVal.bool true)]) }
    ∧ buildSessionCookie "" 0 = "session=; HttpOnly; Secure; SameSite=None; Max-Age=0; Path=/"
    ∧ (handleLogout { blankRequest with cookieHeader := some "session=s1" }
        twoOriginEnv [("s1", ⟨⟨"rt", 7⟩, 2592000⟩)]).upstreamCalls = 0
    ∧ (handleLogout { blankRequest with cookieHeader := some "session=s1" }
        twoOriginEnv [("s1", ⟨⟨"rt", 7⟩, 2592000⟩)]).store =
        (match getSessionId { blankRequest with cookieHeader := some "session=s1" } with
         | some sid => kvDelete [("s1", ⟨⟨"rt", 7⟩, 2592000⟩)] sid
         | none => [("s1", ⟨⟨"rt", 7⟩, 2592000⟩)])
    ∧ (∀ sid, getSessionId { blankRequest with cookieHeader := some "session=s1" } = some sid →
        kvGet (handleLogout { blankRequest with cookieHeader := some "session=s1" }
          twoOriginEnv [("s1", ⟨⟨"rt", 7⟩, 2592000⟩)]).store sid = none)
    ∧ handleLogout { blankRequest with cookieHeader := some "session=s1" } twoOriginEnv
        ((handleLogout { blankRequest with cookieHeader := some "session=s1" }
          twoOriginEnv [("s1", ⟨⟨"rt", 7⟩, 2592000⟩)]).store) =
        handleLogout { blankRequest with cookieHeader := some "session=s1" }
          twoOriginEnv [("s1", ⟨⟨"rt", 7⟩, 2592000⟩)]) :=
  ⟨by decide,
    logout_idempotent { blankRequest with cookieHeader := some "session=s1" }
      twoOriginEnv [("s1", ⟨⟨"rt", 7⟩, 2592000⟩)] "https://a.example" (by decide)⟩



/-- The session cookie built for a fresh session, spelled out. -/
theorem buildSessionCookie_eq (sid : String) :
    buildSessionCookie sid SESSION_MAX_AGE =
      "session=" ++ sid ++ "; HttpOnly; Secure; SameSite=None; Max-Age=2592000; Path=/" := by
  simp [buildSessionCookie, SESSION_MAX_AGE, String.intercalate,
    String.intercalate.go, String.append_assoc]
  congr 2

/-- C3: a callback with a usable code (truthy `code`, no `error` parameter)
whose exchange succeeds with a nonempty refresh token writes exactly one
new session record — the refresh token plus the creation timestamp, under
the fresh session identifier, with the fixed 30-day TTL — and answers a 302
redirect to the resolved app origin with the `?auth=success` marker and a
`Set-Cookie` whose session value is the (nonempty) identifier. -/
theorem callback_success_creates_one_record (request : Request) (env : Env)
    (store : Store) (provider : GoogleTokenResponse) (newSessionId : String)
    (now : Nat) (rt : String)
    (hErr : optTruthy request.errorParam = false)
    (hCode : optTruthy request.codeParam = true)
    (hPErr : optTruthy provider.error = false)
    (hRt : provider.refresh_token = some rt)
    (hRtNe : rt ≠ "")
    (hFresh : kvGet store newSessionId = none)
    (hSid : newSessionId ≠ "") :
    handleCallback request env store provider newSessionId now =
      { response := Except.ok
          { status := 302
            headers :=
              [("Location", callbackRedirectOrigin request env ++ "?auth=success"),
               ("Set-Cookie", buildSessionCookie newSessionId SESSION_MAX_AGE)]
            body := none }
        store := store ++
          [(newSessionId,
            { data := { refresh_token := rt, created := now }
              expirationTtl := SESSION_MAX_AGE })]
        upstreamCalls := 1 }
  ∧ (handleCallback request env store provider newSessionId now).store.length =
      store.length + 1
  ∧ SESSION_MAX_AGE = 2592000
  ∧ buildSessionCookie newSessionId SESSION_MAX_AGE =
      "session=" ++ newSessionId ++ "; HttpOnly; Secure; SameSite=None; Max-Age=2592000; Path=/"
  ∧ newSessionId ≠ "" := by
  have hrt2 : optTruthy (some rt) = true := by simp [optTruthy, hRtNe]
  have h1 : handleCallback request env store provider newSessionId now =
      { response := Except.ok
          { status := 302
            headers :=
              [("Location", callbackRedirectOrigin request env ++ "?auth=success"),
               ("Set-Cookie", buildSessionCookie newSessionId SESSION_MAX_AGE)]
            body := none }
        store := store ++
          [(newSessionId,
            { data := { refresh_token := rt, created := now }
              expirationTtl := SESSION_MAX_AGE })]
        upstreamCalls := 1 } := by
    simp [handleCallback, hErr, hCode, hPErr, hRt, hrt2,
      kvPut_fresh store newSessionId _ hFresh]
  exact ⟨h1, by rw [h1]; simp, by decide, buildSessionCookie_eq newSessionId, hSid⟩

/-- C3 witness: a concrete successful callback. -/
theorem callback_success_creates_one_record_witness :
    optTruthy cbSuccessRequest.errorParam = false
  ∧ optTruthy cbSuccessRequest.codeParam = true
  ∧ optTruthy okProvider.error = false
  ∧ okProvider.refresh_token = some "rt1"
  ∧ kvGet [] "newsid" = none
  ∧ handleCallback cbSuccessRequest twoOriginEnv [] okProvider "newsid" 42 =
      { response := Except.ok
          { status := 302
            headers :=
              [("Location", callbackRedirectOrigin cbSuccessRequest twoOriginEnv ++ "?auth=success"),
               ("Set-Cookie", buildSessionCookie "newsid" SESSION_MAX_AGE)]
            body := none }
        store :=
          [("newsid",
            { data := { refresh_token := "rt1", created := 42 }
              expirationTtl := SESSION_MAX_AGE })]
        upstreamCalls := 1 } := by
  have h := callback_success_creates_one_record cbSuccessRequest twoOriginEnv []
    okProvider "newsid" 42 "rt1"
    (by decide) (by decide) (by decide) (by decide) (by decide) (by decide) (by decide)
  exact ⟨by decide, by decide, by decide, by decide, by decide, h.1⟩

/-- C4: every failing callback — provider-reported error parameter, missing
(or empty) code, provider error in the token response, or a token response
without a (nonempty) refresh token — answers an error redirect (message
`no_refresh_token` in the omitted-refresh-token case) and leaves the
session store unchanged. -/
theorem callback_failure_no_record (request : Request) (env : Env)
    (store : Store) (provider : GoogleTokenResponse) (newSessionId : String)
    (now : Nat) :
    (∀ e, request.errorParam = some e → e ≠ "" →
      handleCallback request env store provider newSessionId now =
        { response := Except.ok (redirectResponse
            (callbackRedirectOrigin request env ++ "?auth=error&message=" ++
              encodeURIComponent e))
          store := store
          upstreamCalls := 0 })
  ∧ (optTruthy request.errorParam = false → optTruthy request.codeParam = false →
      handleCallback request env store provider newSessionId now =
        { response := Except.ok (redirectResponse
            (callbackRedirectOrigin request env ++ "?auth=error&message=no_code"))
          store := store
          upstreamCalls := 0 })
  ∧ (optTruthy request.errorParam = false → optTruthy request.codeParam = true →
      ∀ e, provider.error = some e → e ≠ "" →
      handleCallback request env store provider newSessionId now =
        { response := Except.ok (redirectResponse
            (callbackRedirectOrigin request env ++ "?auth=error&message=" ++
              encodeURIComponent (callbackErrorMessage provider)))
          store := store
          upstreamCalls := 1 })
  ∧ (optTruthy request.errorParam = false → optTruthy request.codeParam = true →
      optTruthy provider.error = false → optTruthy provider.refresh_token = false →
      handleCallback request env store provider newSessionId now =
        { response := Except.ok (redirectResponse
            (callbackRedirectOrigin request env ++ "?auth=error&message=no_refresh_token"))
          store := store
          upstreamCalls := 1 }) := by
  refine ⟨?_, ?_, ?_, ?_⟩
  · intro e hE hne
    have ht : optTruthy (some e) = true := by simp [optTruthy, hne]
    simp [handleCallback, hE, ht]
  · intro hErr hCode
    simp [handleCallback, hErr, hCode]
  · intro hErr hCode e hE hne
    have ht : optTruthy (some e) = true := by simp [optTruthy, hne]
    simp [handleCallback, hErr, hCode, hE, ht]
  · intro hErr hCode hPErr hRt
    simp [handleCallback, hErr, hCode, hPErr, hRt]

/-- C4 witness: a concrete callback whose token response has no refresh
token produces the `no_refresh_token` redirect and stores nothing. -/
theorem callback_failure_no_record_witness :
    optTruthy cbPlainRequest.errorParam = false
  ∧ optTruthy cbPlainRequest.codeParam = true
  ∧ optTruthy noRefreshProvider.error = false
  ∧ optTruthy noRefreshProvider.refresh_token = false
  ∧ handleCallback cbPlainRequest twoOriginEnv [] noRefreshProvider "newsid" 42 =
      { response := Except.ok (redirectResponse
          (callbackRedirectOrigin cbPlainRequest twoOriginEnv ++
            "?auth=error&message=no_refresh_token"))
        store := []
        upstreamCalls := 1 } := by
  have h := callback_failure_no_record cbPlainRequest twoOriginEnv []
    noRefreshProvider "newsid" 42
  exact ⟨by decide, by decide, by decide, by decide,
    h.2.2.2 (by decide) (by decide) (by decide) (by decide)⟩


/-- C9: the catch-all is not last-resort. With a malformed `Referer` and no
allow-listed `Origin`, the endpoint handler throws while building its
response, and the catch block — which itself calls `corsResponse` and so
re-parses the same malformed `Referer` — throws again: the exception
escapes `fetch` unhandled and no response at all is produced, contradicting
the documented well-formed CORS'd JSON 500. -/
theorem fetch_unhandled_fault_on_malformed_referer :
    newURLOrigin "not a url" = none
  ∧ getRequestOrigin badRefererRequest twoOriginEnv = Except.error ()
  ∧ (fetchHandler badRefererRequest twoOriginEnv [] okProvider "sid" 0).response =
      Except.error () := by
  exact ⟨by decide, by decide, by decide⟩

/-- C5 counterexample: the 404 response of the router carries no CORS
headers at all, and the login redirect carries none either — so not every
response carries the CORS headers. -/
theorem every_response_cors_counterexample :
    (fetchHandler notFoundRequest twoOriginEnv [] okProvider "sid" 0).response.map
      (fun r => (r.status, getHeader r.headers "Access-Control-Allow-Credentials",
        getHeader r.headers "Access-Control-Allow-Origin")) =
      Except.ok (404, none, none)
  ∧ (handleLogin blankRequest twoOriginEnv []).response.map
      (fun r => (r.status, getHeader r.headers "Access-Control-Allow-Credentials")) =
      Except.ok (302, none) := by
  exact ⟨by decide, by decide⟩

/-- C5 (amended): every response built by the shared `corsResponse` helper —
all JSON responses: `/auth/token`, `/auth/logout`, `/auth/status`, the
OPTIONS preflight and the catch-all 500 — carries the full CORS header set
computed from the origin resolution, including
`Access-Control-Allow-Credentials: true`; the redirect responses of
`/auth/login` and `/auth/callback` and the bare 404 carry none of them. -/
theorem corsResponse_carries_cors_headers (request : Request) (env : Env)
    (status : Nat) (body : Option (List (String × JsonVal)))
    (extra : List (String × String)) (r : Response)
    (hr : corsResponse request env status body extra = Except.ok r)
    (hextra : extra.all (fun p =>
        p.1 != "Access-Control-Allow-Origin" &&
        (p.1 != "Access-Control-Allow-Credentials" &&
        (p.1 != "Access-Control-Allow-Methods" &&
        (p.1 != "Access-Control-Allow-Headers" &&
        p.1 != "Content-Type")))) = true) :
    (∃ o, getRequestOrigin request env = Except.ok o ∧
       getHeader r.headers "Access-Control-Allow-Origin" = some o)
  ∧ getHeader r.headers "Access-Control-Allow-Credentials" = some "true"
  ∧ getHeader r.headers "Access-Control-Allow-Methods" = some "GET, POST, OPTIONS"
  ∧ getHeader r.headers "Access-Control-Allow-Headers" = some "Content-Type"
  ∧ getHeader r.headers "Content-Type" = some "application/json"
  ∧ r.status = status := by
  have hkey : ∀ (k : String), (fun p : String × String => p.1 != k) =
      (fun p : String × String => p.1 != k) := fun _ => rfl
  have hall : ∀ p ∈ extra, (p.1 != "Access-Control-Allow-Origin") = true ∧
      (p.1 != "Access-Control-Allow-Credentials") = true ∧
      (p.1 != "Access-Control-Allow-Methods") = true ∧
      (p.1 != "Access-Control-Allow-Headers") = true ∧
      (p.1 != "Content-Type") = true := by
    intro p hp
    have h := List.all_eq_true.mp hextra p hp
    simp only [Bool.and_eq_true] at h
    exact ⟨h.1, h.2.1, h.2.2.1, h.2.2.2.1, h.2.2.2.2⟩
  have mk : ∀ (k : String), (∀ p ∈ extra, (p.1 != k) = true) →
      extra.all (fun p => p.1 != k) = true := by
    intro k h
    exact List.all_eq_true.mpr h
  obtain ⟨o0, hO, hrr⟩ := corsResponse_ok_inv hr
  subst hrr
  refine ⟨⟨o0, hO, getHeader_ACAO o0 extra
      (mk _ (fun p hp => (hall p hp).1))⟩, ?_, ?_, ?_, ?_, rfl⟩
  · exact getHeader_objSpread_base _ extra _ _
      (by simp [corsBaseHeaders, getHeader])
      (mk _ (fun p hp => (hall p hp).2.1))
  · exact getHeader_objSpread_base _ extra _ _
      (by simp [corsBaseHeaders, getHeader])
      (mk _ (fun p hp => (hall p hp).2.2.1))
  · exact getHeader_objSpread_base _ extra _ _
      (by simp [corsBaseHeaders, getHeader])
      (mk _ (fun p hp => (hall p hp).2.2.2.1))
  · exact getHeader_objSpread_base _ extra _ _
      (by simp [corsBaseHeaders, getHeader])
      (mk _ (fun p hp => (hall p hp).2.2.2.2))

/-- C5 witness: the OPTIONS preflight response at a concrete request. -/
theorem corsResponse_carries_cors_headers_witness :
    corsResponse blankRequest twoOriginEnv 204 none [] = Except.ok
      { status := 204, headers := corsBaseHeaders "https://a.example", body := none }
  ∧ ((∃ o, getRequestOrigin blankRequest twoOriginEnv = Except.ok o ∧
        getHeader (corsBaseHeaders "https://a.example") "Access-Control-Allow-Origin" = some o)
    ∧ getHeader (corsBaseHeaders "https://a.example") "Access-Control-Allow-Credentials" = some "true"
    ∧ getHeader (corsBaseHeaders "https://a.example") "Access-Control-Allow-Methods" = some "GET, POST, OPTIONS"
    ∧ getHeader (corsBaseHeaders "https://a.example") "Access-Control-Allow-Headers" = some "Content-Type"
    ∧ getHeader (corsBaseHeaders "https://a.example") "Content-Type" = some "application/json"
    ∧ (204 : Nat) = 204) :=
  ⟨by decide,
    corsResponse_carries_cors_headers blankRequest twoOriginEnv 204 none []
      { status := 204, headers := corsBaseHeaders "https://a.example", body := none }
      (by decide) (by decide)⟩

/-- C2 counterexample: with an untrusted `Origin` header but an allow-listed
`Referer`, the echoed header is the Referer's origin, not the first
allow-list entry; and an empty `Origin` header that IS a member of the
allow-list (trailing comma in the configuration) is not echoed. -/
theorem cors_fallback_counterexample :
    (getAllowedOrigins twoOriginEnv).contains "https://evil.example" = false
  ∧ firstAllowed (getAllowedOrigins twoOriginEnv) = "https://a.example"
  ∧ (corsResponse evilOriginRequest twoOriginEnv 200 none []).map
      (fun r => getHeader r.headers "Access-Control-Allow-Origin") =
      Except.ok (some "https://b.example")
  ∧ ("https://b.example" : String) ≠ "https://a.example"
  ∧ (getAllowedOrigins emptyEntryEnv).contains "" = true
  ∧ emptyOriginRequest.originHeader = some ""
  ∧ (corsResponse emptyOriginRequest emptyEntryEnv 200 none []).map
      (fun r => getHeader r.headers "Access-Control-Allow-Origin") =
      Except.ok (some "https://a.example")
  ∧ ("https://a.example" : String) ≠ "" := by
  exact ⟨by decide, by decide, by decide, by decide, by decide, by decide,
    by decide, by decide⟩

/-- C2 (amended): for every response built by the shared `corsResponse`
helper — the only responses that carry an `Access-Control-Allow-Origin`
header at all; the login/callback redirects and the bare 404 carry none —
and whose extra headers do not override that header, a nonempty
allow-listed `Origin` header is echoed exactly; when the `Origin` header is
not a member of the allow-list the echoed value is an allow-list member
distinct from the untrusted origin — the `Referer` header's URL origin when
that is allow-listed, and the first configured allow-list entry when no
`Referer` is present — never the untrusted origin itself. -/
theorem cors_origin_allowlisted (request : Request) (env : Env) (status : Nat)
    (body : Option (List (String × JsonVal))) (extra : List (String × String))
    (r : Response)
    (hr : corsResponse request env status body extra = Except.ok r)
    (hextra : extra.all (fun p => p.1 != "Access-Control-Allow-Origin") = true) :
    (∀ o, request.originHeader = some o → o ≠ "" →
       (getAllowedOrigins env).contains o = true →
       getHeader r.headers "Access-Control-Allow-Origin" = some o)
  ∧ (∀ o, request.originHeader = some o →
       (getAllowedOrigins env).contains o = false →
         (∃ v, getHeader r.headers "Access-Control-Allow-Origin" = some v ∧
            (getAllowedOrigins env).contains v = true ∧ v ≠ o)
       ∧ (request.refererHeader = none →
            getHeader r.headers "Access-Control-Allow-Origin" =
              some (firstAllowed (getAllowedOrigins env)))
       ∧ (∀ ref ro, request.refererHeader = some ref → newURLOrigin ref = some ro →
            (getAllowedOrigins env).contains ro = true →
            getHeader r.headers "Access-Control-Allow-Origin" = some ro)) := by
  obtain ⟨o0, hO, hrr⟩ := corsResponse_ok_inv hr
  subst hrr
  constructor
  · intro o hoh hne hm
    rw [getRequestOrigin_origin_hit request env o hoh hne hm] at hO
    cases hO
    exact getHeader_ACAO _ extra hextra
  · intro o hoh hm
    have hmiss : getRequestOrigin request env =
        refererOrigin request (getAllowedOrigins env) :=
      getRequestOrigin_origin_miss request env (by rw [hoh]; exact Or.inr hm)
    rw [hmiss] at hO
    have hmem := refererOrigin_mem request _ o0 (getAllowedOrigins_ne_nil env) hO
    refine ⟨⟨o0, getHeader_ACAO o0 extra hextra, hmem, ?_⟩, ?_, ?_⟩
    · intro he
      rw [he] at hmem
      exact absurd (hmem.symm.trans hm) (by decide)
    · intro hrh
      rw [refererOrigin_none request _ hrh] at hO
      cases hO
      exact getHeader_ACAO _ extra hextra
    · intro ref ro hrh hu hm2
      rw [refererOrigin_hit request _ ref ro hrh hu hm2] at hO
      cases hO
      exact getHeader_ACAO _ extra hextra

/-- C2 witness: the amended claim at the untrusted-`Origin` request. -/
theorem cors_origin_allowlisted_witness :
    corsResponse evilOriginRequest twoOriginEnv 200 none [] = Except.ok
      { status := 200, headers := corsBaseHeaders "https://b.example", body := none }
  ∧ evilOriginRequest.originHeader = some "https://evil.example"
  ∧ (getAllowedOrigins twoOriginEnv).contains "https://evil.example" = false
  ∧ (∃ v, getHeader (corsBaseHeaders "https://b.example")
        "Access-Control-Allow-Origin" = some v ∧
      (getAllowedOrigins twoOriginEnv).contains v = true ∧
      v ≠ "https://evil.example") := by
  have h := cors_origin_allowlisted evilOriginRequest twoOriginEnv 200 none []
    { status := 200, headers := corsBaseHeaders "https://b.example", body := none }
    (by decide) (by decide)
  exact ⟨by decide, by decide, by decide,
    (h.2 "https://evil.example" (by decide) (by decide)).1⟩

/-- C6 counterexample: the query-parameter tier is not consulted for the
origin used on responses. At a request whose `origin` query parameter names
allow-listed `https://b.example` while the `Origin` header names
`https://a.example`, the response origin is the header's value, not the
parameter's. -/
theorem origin_priority_counterexample :
    paramVsHeaderRequest.originParam = some "https://b.example"
  ∧ (getAllowedOrigins twoOriginEnv).contains "https://b.example" = true
  ∧ (corsResponse paramVsHeaderRequest twoOriginEnv 200 none []).map
      (fun r => getHeader r.headers "Access-Control-Allow-Origin") =
      Except.ok (some "https://a.example")
  ∧ ("https://a.example" : String) ≠ "https://b.example" := by
  exact ⟨by decide, by decide, by decide, by decide⟩

/-- C6 (amended): origin resolution is a pure function of the request's
headers/parameters and the configuration. Only the login handler consults
the explicit `origin` query parameter (with highest priority); the shared
resolution used for responses checks the `Origin` header and then the
`Referer` header's URL origin, returns the first tier whose (nonempty)
candidate is an allow-list member, and otherwise falls back to the first
configured allow-list entry; every resolved origin is an allow-list
member. -/
theorem origin_resolution_tiers (request : Request) (env : Env) :
    (∀ p q, getRequestOrigin { request with originParam := p } env =
        getRequestOrigin { request with originParam := q } env)
  ∧ (∀ p, request.originParam = some p → p ≠ "" →
      (getAllowedOrigins env).contains p = true →
      loginOrigin request env = Except.ok p)
  ∧ ((match request.originParam with
      | some p => p = "" ∨ (getAllowedOrigins env).contains p = false
      | none => True) →
      loginOrigin request env = getRequestOrigin request env)
  ∧ (∀ o, request.originHeader = some o → o ≠ "" →
      (getAllowedOrigins env).contains o = true →
      getRequestOrigin request env = Except.ok o)
  ∧ ((match request.originHeader with
      | some o => o = "" ∨ (getAllowedOrigins env).contains o = false
      | none => True) →
      (∀ ref ro, request.refererHeader = some ref → newURLOrigin ref = some ro →
        (getAllowedOrigins env).contains ro = true →
        getRequestOrigin request env = Except.ok ro)
      ∧ (∀ ref ro, request.refererHeader = some ref → newURLOrigin ref = some ro →
        (getAllowedOrigins env).contains ro = false →
        getRequestOrigin request env = Except.ok (firstAllowed (getAllowedOrigins env)))
      ∧ (request.refererHeader = none →
        getRequestOrigin request env = Except.ok (firstAllowed (getAllowedOrigins env))))
  ∧ (∀ o0, getRequestOrigin request env = Except.ok o0 →
      (getAllowedOrigins env).contains o0 = true) := by
  refine ⟨fun p q => rfl, ?_, ?_, ?_, ?_, getRequestOrigin_mem request env⟩
  · intro p hp hne hm
    have hm2 : p ∈ getAllowedOrigins env := by simpa using hm
    simp [loginOrigin, hp, hne, hm2]
  · intro h
    rcases hp : request.originParam with _ | p
    · simp [loginOrigin, hp]
    · rw [hp] at h
      rcases h with h | h
      · subst h
        simp [loginOrigin, hp]
      · have hm2 : p ∉ getAllowedOrigins env := by simpa using h
        simp [loginOrigin, hp, hm2]
  · exact getRequestOrigin_origin_hit request env
  · intro h
    have hmiss := getRequestOrigin_origin_miss request env h
    refine ⟨?_, ?_, ?_⟩
    · intro ref ro hrh hu hm
      rw [hmiss]
      exact refererOrigin_hit request _ ref ro hrh hu hm
    · intro ref ro hrh hu hm
      rw [hmiss]
      exact refererOrigin_miss request _ ref ro hrh hu hm
    · intro hrh
      rw [hmiss]
      exact refererOrigin_none request _ hrh

/-- C6 witness: the login tiering at a concrete request declaring an
allow-listed origin parameter. -/
theorem origin_resolution_tiers_witness :
    loginParamRequest.originParam = some "https://b.example"
  ∧ (getAllowedOrigins twoOriginEnv).contains "https://b.example" = true
  ∧ loginOrigin loginParamRequest twoOriginEnv = Except.ok "https://b.example" :=
  ⟨by decide, by decide,
    (origin_resolution_tiers loginParamRequest twoOriginEnv).2.1
      "https://b.example" (by decide) (by decide) (by decide)⟩

end AuthWorker
